import Mathlib

/-!
Shallow embedding of the special_member_hooks repository.

Two components are embedded:

* SpecialMemberHooks (src/special_member_hooks.hpp): a struct with six
  optional zero-argument callbacks, one per C++ special member function.
  Each special member emits a debug trace line and then invokes the
  matching callback slot if it is non-empty.
* ObjectLifetimeHook (src/object_lifetime_hook.hpp / .cpp): a class whose
  constructor invokes an on-create callback (not retained) and whose
  destructor invokes a stored on-destroy callback.

Callbacks are modelled as values of an abstract type, wrapped in Option:
none is an empty std function, some c a callable one.  Invoking a callback
is modelled as appending an observable event to an event list; the debug
trace lines of the C++ code are a second kind of event.  The C++ identity
check this != other of the assignment operators is modelled by running the
operators on a heap of instances addressed by natural numbers, so that two
distinct names can denote the same object.  A moved-from std function is
modelled as empty, the state the standard library implementations leave it
in; the spec only relies on moved-from instances being safely destructible.
-/

/-- Observable events of the embedded program: a debug trace line sent to
the global logger, or the invocation of a user callback. -/
inductive Event (α : Type) where
  | trace (msg : String) : Event α
  | call (c : α) : Event α
  deriving DecidableEq

/-- The user-callback invocations contained in an event list, in order,
with the debug trace lines filtered out. -/
def calls {α : Type} : List (Event α) → List α
  | [] => []
  | Event.trace _ :: es => calls es
  | Event.call c :: es => c :: calls es

/-- Embedding of the C++ pattern if (f) f(); on a std function slot: an
empty slot is skipped, a non-empty one is invoked exactly once. -/
def invoke {α : Type} : Option α → List (Event α)
  | some c => [Event.call c]
  | none => []

/-- Embedding of struct SpecialMemberHooks: six optional zero-argument
callback slots, one per special member function
(src/special_member_hooks.hpp, lines 38-44). -/
structure SpecialMemberHooks (α : Type) where
  on_construct : Option α
  on_copy_construct : Option α
  on_move_construct : Option α
  on_copy_assign : Option α
  on_move_assign : Option α
  on_destroy : Option α
  deriving DecidableEq

namespace SpecialMemberHooks

/-- All six slots empty: the state of the members after their default
initialization, since a default-constructed std function is empty. -/
def empty (α : Type) : SpecialMemberHooks α :=
  { on_construct := none
    on_copy_construct := none
    on_move_construct := none
    on_copy_assign := none
    on_move_assign := none
    on_destroy := none }

/-- Embedding of the default constructor SpecialMemberHooks(): the members
are default-initialized to empty, a trace is emitted, then on_construct is
invoked if non-empty.  Returns the constructed instance and the events. -/
def defaultConstruct (α : Type) : SpecialMemberHooks α × List (Event α) :=
  let this_ := empty α
  (this_, Event.trace "SpecialMemberHooks: default constructor called" ::
    invoke this_.on_construct)

/-- Embedding of the copy constructor SpecialMemberHooks(const
SpecialMemberHooks other): every slot is copy-initialized from other, a
trace is emitted, then the new instance invokes its on_copy_construct if
non-empty.  Other is taken by const reference, so its post state is other
itself.  Returns (new instance, post state of other, events). -/
def copyConstruct {α : Type} (other : SpecialMemberHooks α) :
    SpecialMemberHooks α × SpecialMemberHooks α × List (Event α) :=
  let this_ : SpecialMemberHooks α :=
    { on_construct := other.on_construct
      on_copy_construct := other.on_copy_construct
      on_move_construct := other.on_move_construct
      on_copy_assign := other.on_copy_assign
      on_move_assign := other.on_move_assign
      on_destroy := other.on_destroy }
  (this_, other,
    Event.trace "SpecialMemberHooks: copy constructor called" ::
      invoke this_.on_copy_construct)

/-- Embedding of the move constructor SpecialMemberHooks(SpecialMemberHooks
and-ref other): every slot is move-initialized from the matching slot of
other, leaving other's slots empty (the moved-from state of a std
function), a trace is emitted, then the new instance invokes its
on_move_construct if non-empty.  Returns (new instance, post state of
other, events). -/
def moveConstruct {α : Type} (other : SpecialMemberHooks α) :
    SpecialMemberHooks α × SpecialMemberHooks α × List (Event α) :=
  let this_ : SpecialMemberHooks α :=
    { on_construct := other.on_construct
      on_copy_construct := other.on_copy_construct
      on_move_construct := other.on_move_construct
      on_copy_assign := other.on_copy_assign
      on_move_assign := other.on_move_assign
      on_destroy := other.on_destroy }
  (this_, empty α,
    Event.trace "SpecialMemberHooks: move constructor called" ::
      invoke this_.on_move_construct)

/-- Result of running an assignment operator on a heap of instances: the
updated heap, the events emitted, and the address of the returned
reference (the operators end in return *this). -/
structure AssignResult (α : Type) where
  heap : Nat → SpecialMemberHooks α
  events : List (Event α)
  ret : Nat

/-- Embedding of the copy assignment operator, run on the instance at
address tgt with the source at address src in heap.  A trace is emitted
first; then, unless the two addresses denote the same object, all six
slots are copied from the source into the target and the target's (just
copied) on_copy_assign is invoked if non-empty; finally *this (the target
address) is returned. -/
def copyAssign {α : Type} (tgt src : Nat)
    (heap : Nat → SpecialMemberHooks α) : AssignResult α :=
  let tr : Event α := Event.trace "SpecialMemberHooks: copy assignment called"
  if tgt = src then
    { heap := heap, events := [tr], ret := tgt }
  else
    let s := heap src
    let this_ : SpecialMemberHooks α :=
      { on_construct := s.on_construct
        on_copy_construct := s.on_copy_construct
        on_move_construct := s.on_move_construct
        on_copy_assign := s.on_copy_assign
        on_move_assign := s.on_move_assign
        on_destroy := s.on_destroy }
    { heap := fun i => if i = tgt then this_ else heap i
      events := tr :: invoke this_.on_copy_assign
      ret := tgt }

/-- Embedding of the move assignment operator, run on the instance at
address tgt with the source at address src in heap.  A trace is emitted
first; then, unless the two addresses denote the same object, all six
slots are moved from the source into the target (the source's slots are
left empty, the moved-from state of a std function) and the target's
(just transferred) on_move_assign is invoked if non-empty; finally *this
is returned. -/
def moveAssign {α : Type} (tgt src : Nat)
    (heap : Nat → SpecialMemberHooks α) : AssignResult α :=
  let tr : Event α := Event.trace "SpecialMemberHooks: move assignment called"
  if tgt = src then
    { heap := heap, events := [tr], ret := tgt }
  else
    let s := heap src
    let this_ : SpecialMemberHooks α :=
      { on_construct := s.on_construct
        on_copy_construct := s.on_copy_construct
        on_move_construct := s.on_move_construct
        on_copy_assign := s.on_copy_assign
        on_move_assign := s.on_move_assign
        on_destroy := s.on_destroy }
    { heap := fun i => if i = tgt then this_ else if i = src then empty α else heap i
      events := tr :: invoke this_.on_move_assign
      ret := tgt }

/-- Embedding of the destructor: a trace is emitted, then on_destroy is
invoked if non-empty. -/
def destroy {α : Type} (h : SpecialMemberHooks α) : List (Event α) :=
  Event.trace "SpecialMemberHooks: destructor called" :: invoke h.on_destroy

end SpecialMemberHooks

/-- Embedding of class ObjectLifetimeHook (src/object_lifetime_hook.hpp):
only the destroy callback is a member; the create callback is a
constructor parameter and is not retained. -/
structure ObjectLifetimeHook (α : Type) where
  on_destroy_ : Option α
  deriving DecidableEq

namespace ObjectLifetimeHook

/-- Embedding of the constructor ObjectLifetimeHook(on_create, on_destroy)
(src/object_lifetime_hook.cpp, lines 3-8): on_destroy is stored in the
member on_destroy_, then on_create is invoked if non-empty.  Returns the
constructed instance and the events emitted during construction. -/
def construct {α : Type} (on_create on_destroy : Option α) :
    ObjectLifetimeHook α × List (Event α) :=
  ({ on_destroy_ := on_destroy }, invoke on_create)

/-- Embedding of the destructor (src/object_lifetime_hook.cpp, lines
10-14): the stored on_destroy_ is invoked if non-empty. -/
def destroy {α : Type} (h : ObjectLifetimeHook α) : List (Event α) :=
  invoke h.on_destroy_

end ObjectLifetimeHook

/-- A concrete instance with all six slots non-empty, the callbacks being
distinguishable by their numeric labels. -/
def hooksA : SpecialMemberHooks Nat :=
  { on_construct := some 10
    on_copy_construct := some 11
    on_move_construct := some 12
    on_copy_assign := some 13
    on_move_assign := some 14
    on_destroy := some 15 }

/-- A concrete freshly default-constructed instance: all slots empty. -/
def hooksB : SpecialMemberHooks Nat := SpecialMemberHooks.empty Nat

/-- A concrete heap: address 0 holds hooksA, every other address holds an
empty instance. -/
def heap01 : Nat → SpecialMemberHooks Nat :=
  fun i => if i = 0 then hooksA else hooksB

/-- The calls of an invoke are the content of the slot. -/
theorem calls_invoke {α : Type} (c : Option α) : calls (invoke c) = c.toList := by
  cases c <;> rfl

/-- A trace event contributes no calls. -/
theorem calls_trace_cons {α : Type} (m : String) (es : List (Event α)) :
    calls (Event.trace m :: es) = calls es := rfl

/-- C1: every lifecycle transition invokes only the callback slot matching
that transition, exactly once and only when that slot is non-empty at the
time of the transition, and invokes none of the other five slots.  For the
assignment operators the slot consulted is the one just written into the
target, whose value is the source's; a self-assignment (covered here by
running the operators with equal target and source address) invokes
nothing. -/
theorem smh_transition_fires_matching_slot {α : Type}
    (other h : SpecialMemberHooks α) (heap : Nat → SpecialMemberHooks α)
    (tgt src : Nat) (hne : tgt ≠ src) :
    calls (SpecialMemberHooks.defaultConstruct α).2 = [] ∧
    calls (SpecialMemberHooks.copyConstruct other).2.2 =
      other.on_copy_construct.toList ∧
    calls (SpecialMemberHooks.moveConstruct other).2.2 =
      other.on_move_construct.toList ∧
    calls (SpecialMemberHooks.copyAssign tgt src heap).events =
      (heap src).on_copy_assign.toList ∧
    calls (SpecialMemberHooks.moveAssign tgt src heap).events =
      (heap src).on_move_assign.toList ∧
    calls (SpecialMemberHooks.copyAssign tgt tgt heap).events = [] ∧
    calls (SpecialMemberHooks.moveAssign tgt tgt heap).events = [] ∧
    calls (SpecialMemberHooks.destroy h) = h.on_destroy.toList := by
  refine ⟨rfl, ?_, ?_, ?_, ?_, ?_, ?_, ?_⟩ <;>
    simp [SpecialMemberHooks.defaultConstruct, SpecialMemberHooks.copyConstruct,
      SpecialMemberHooks.moveConstruct, SpecialMemberHooks.copyAssign,
      SpecialMemberHooks.moveAssign, SpecialMemberHooks.destroy,
      hne, calls, calls_trace_cons, calls_invoke]

/-- Witness for C1 at concrete inputs: source instance hooksA with all six
slots set, heap with hooksA at address 0, target address 1. -/
theorem smh_transition_fires_matching_slot_witness :
    calls (SpecialMemberHooks.defaultConstruct Nat).2 = [] ∧
    calls (SpecialMemberHooks.copyConstruct hooksA).2.2 =
      hooksA.on_copy_construct.toList ∧
    calls (SpecialMemberHooks.moveConstruct hooksA).2.2 =
      hooksA.on_move_construct.toList ∧
    calls (SpecialMemberHooks.copyAssign 1 0 heap01).events =
      (heap01 0).on_copy_assign.toList ∧
    calls (SpecialMemberHooks.moveAssign 1 0 heap01).events =
      (heap01 0).on_move_assign.toList ∧
    calls (SpecialMemberHooks.copyAssign 1 1 heap01).events = [] ∧
    calls (SpecialMemberHooks.moveAssign 1 1 heap01).events = [] ∧
    calls (SpecialMemberHooks.destroy hooksB) = hooksB.on_destroy.toList :=
  smh_transition_fires_matching_slot hooksA hooksB heap01 1 0 (by decide)

/-- C2: copy construction duplicates all six slots: the new instance's
slot set equals the source's set, the source is left unchanged, and the
callback invoked (if any) is the new instance's on_copy_construct, read
after the slots have been duplicated. -/
theorem smh_copy_construct_duplicates {α : Type}
    (other : SpecialMemberHooks α) :
    (SpecialMemberHooks.copyConstruct other).1 = other ∧
    (SpecialMemberHooks.copyConstruct other).2.1 = other ∧
    calls (SpecialMemberHooks.copyConstruct other).2.2 =
      (SpecialMemberHooks.copyConstruct other).1.on_copy_construct.toList :=
  ⟨rfl, rfl, by
    simp [SpecialMemberHooks.copyConstruct, calls_trace_cons, calls_invoke]⟩

/-- C3: move construction transfers all six slots: the new instance's slot
set equals the source's original set, the callback invoked (if any) is the
new instance's on_move_construct, read after the transfer, and destroying
the moved-from source afterwards is safe and invokes no callback. -/
theorem smh_move_construct_transfers {α : Type}
    (other : SpecialMemberHooks α) :
    (SpecialMemberHooks.moveConstruct other).1 = other ∧
    calls (SpecialMemberHooks.moveConstruct other).2.2 =
      (SpecialMemberHooks.moveConstruct other).1.on_move_construct.toList ∧
    calls (SpecialMemberHooks.destroy
      (SpecialMemberHooks.moveConstruct other).2.1) = [] :=
  ⟨rfl, by
    simp [SpecialMemberHooks.moveConstruct, calls_trace_cons, calls_invoke], rfl⟩

/-- C4: self copy-assignment and self move-assignment are no-ops: the heap
(hence every slot of every instance) is unchanged, no callback fires, and
the only event is the unconditional debug trace emitted on entry, before
the guard check — nothing happens beyond the guard check. -/
theorem smh_self_assign_noop {α : Type} (t : Nat)
    (heap : Nat → SpecialMemberHooks α) :
    (SpecialMemberHooks.copyAssign t t heap).heap = heap ∧
    (SpecialMemberHooks.copyAssign t t heap).events =
      [Event.trace "SpecialMemberHooks: copy assignment called"] ∧
    calls (SpecialMemberHooks.copyAssign t t heap).events = [] ∧
    (SpecialMemberHooks.moveAssign t t heap).heap = heap ∧
    (SpecialMemberHooks.moveAssign t t heap).events =
      [Event.trace "SpecialMemberHooks: move assignment called"] ∧
    calls (SpecialMemberHooks.moveAssign t t heap).events = [] := by
  simp [SpecialMemberHooks.copyAssign, SpecialMemberHooks.moveAssign, calls]

/-- C5: copy-assignment between distinct instances duplicates all six
slots of the source into the target (overwriting the target's prior
values), leaves every other instance unchanged, and the callback invoked
(if any) is the target's on_copy_assign as it stands after all six slots
have been populated, i.e. the value just copied from the source. -/
theorem smh_copy_assign_overwrites {α : Type} (tgt src i : Nat)
    (heap : Nat → SpecialMemberHooks α) (hne : tgt ≠ src) (hi : i ≠ tgt) :
    (SpecialMemberHooks.copyAssign tgt src heap).heap tgt = heap src ∧
    (SpecialMemberHooks.copyAssign tgt src heap).heap i = heap i ∧
    calls (SpecialMemberHooks.copyAssign tgt src heap).events =
      ((SpecialMemberHooks.copyAssign tgt src heap).heap tgt).on_copy_assign.toList := by
  simp [SpecialMemberHooks.copyAssign, hne, hi, calls_trace_cons, calls_invoke]

/-- Witness for C5: target address 1, source address 0, bystander address
2, on the concrete heap heap01. -/
theorem smh_copy_assign_overwrites_witness :
    (SpecialMemberHooks.copyAssign 1 0 heap01).heap 1 = heap01 0 ∧
    (SpecialMemberHooks.copyAssign 1 0 heap01).heap 2 = heap01 2 ∧
    calls (SpecialMemberHooks.copyAssign 1 0 heap01).events =
      ((SpecialMemberHooks.copyAssign 1 0 heap01).heap 1).on_copy_assign.toList :=
  smh_copy_assign_overwrites 1 0 2 heap01 (by decide) (by decide)

/-- C6: move-assignment between distinct instances transfers all six slots
of the source into the target, the callback fired (if any) is exactly the
content of the transferred on_move_assign slot, and for every callback c a
counter incremented by c ends at the number of occurrences of c in that
slot's content — in particular at 1 when the slot holds c. -/
theorem smh_move_assign_transfers {α : Type} [DecidableEq α]
    (tgt src : Nat) (heap : Nat → SpecialMemberHooks α) (c : α)
    (hne : tgt ≠ src) :
    (SpecialMemberHooks.moveAssign tgt src heap).heap tgt = heap src ∧
    calls (SpecialMemberHooks.moveAssign tgt src heap).events =
      (heap src).on_move_assign.toList ∧
    (calls (SpecialMemberHooks.moveAssign tgt src heap).events).count c =
      ((heap src).on_move_assign.toList).count c := by
  refine ⟨?_, ?_, ?_⟩
  · simp [SpecialMemberHooks.moveAssign, hne]
  · simp [SpecialMemberHooks.moveAssign, hne, calls_trace_cons, calls_invoke]
  · simp [SpecialMemberHooks.moveAssign, hne, calls_trace_cons, calls_invoke]

/-- Witness for C6, the spec's scenario: instance a at address 0 has
on_move_assign set to callback 14, instance b at address 1 is default
constructed; after move-assigning b from a the slot content transferred is
the singleton of callback 14, so its count (the counter C) equals 1. -/
theorem smh_move_assign_transfers_witness :
    (SpecialMemberHooks.moveAssign 1 0 heap01).heap 1 = heap01 0 ∧
    calls (SpecialMemberHooks.moveAssign 1 0 heap01).events =
      (heap01 0).on_move_assign.toList ∧
    (calls (SpecialMemberHooks.moveAssign 1 0 heap01).events).count 14 =
      ((heap01 0).on_move_assign.toList).count 14 :=
  smh_move_assign_transfers 1 0 heap01 14 (by decide)

/-- C7: for an ObjectLifetimeHook whose stored destroy callback is the
callback c, destruction invokes c exactly once; with an empty stored
callback destruction invokes nothing; construction with any create
callback oc distinct from the destroy callback stores the destroy
callback intact and never invokes it before destruction. -/
theorem olh_destroy_fires_once {α : Type} (oc : Option α) (c : α)
    (hne : oc ≠ some c) :
    ObjectLifetimeHook.destroy { on_destroy_ := some c } = [Event.call c] ∧
    ObjectLifetimeHook.destroy { on_destroy_ := (none : Option α) } = [] ∧
    (ObjectLifetimeHook.construct oc (some c)).1 = { on_destroy_ := some c } ∧
    Event.call c ∉ (ObjectLifetimeHook.construct oc (some c)).2 := by
  refine ⟨rfl, rfl, rfl, ?_⟩
  cases oc with
  | none => simp [ObjectLifetimeHook.construct, invoke]
  | some d =>
      simp [ObjectLifetimeHook.construct, invoke]
      exact fun hcd => hne (by rw [hcd])

/-- Witness for C7: create callback 1, destroy callback 2. -/
theorem olh_destroy_fires_once_witness :
    ObjectLifetimeHook.destroy { on_destroy_ := some 2 } = [Event.call 2] ∧
    ObjectLifetimeHook.destroy { on_destroy_ := (none : Option Nat) } = [] ∧
    (ObjectLifetimeHook.construct (some 1) (some 2)).1 =
      { on_destroy_ := some 2 } ∧
    Event.call 2 ∉ (ObjectLifetimeHook.construct (some 1) (some 2)).2 :=
  olh_destroy_fires_once (some 1) 2 (by decide)

/-- C8: constructing an ObjectLifetimeHook with a non-empty create
callback invokes it exactly once, synchronously, within construction; an
empty create callback is skipped; and the create callback is not retained:
the constructed instance holds only the destroy callback. -/
theorem olh_construct_fires_create_once {α : Type} (c : α)
    (oc od : Option α) :
    (ObjectLifetimeHook.construct (some c) od).2 = [Event.call c] ∧
    (ObjectLifetimeHook.construct (none : Option α) od).2 = [] ∧
    (ObjectLifetimeHook.construct oc od).1 = { on_destroy_ := od } :=
  ⟨rfl, rfl, rfl⟩

/-- C9: a default-constructed SpecialMemberHooks instance has all six
slots empty at the end of construction, default construction invokes no
callback, and the on_construct check in the constructor body is dead: the
slot it reads is the new instance's on_construct, which is empty. -/
theorem smh_default_construct_empty_and_silent (α : Type) :
    (SpecialMemberHooks.defaultConstruct α).1 = SpecialMemberHooks.empty α ∧
    calls (SpecialMemberHooks.defaultConstruct α).2 = [] ∧
    invoke (SpecialMemberHooks.defaultConstruct α).1.on_construct = [] :=
  ⟨rfl, rfl, rfl⟩

/-- C10: both assignment operators return *this, the target address, in
the self-assignment branch as well as in the distinct-instances branch. -/
theorem smh_assign_returns_this {α : Type} (tgt src : Nat)
    (heap : Nat → SpecialMemberHooks α) :
    (SpecialMemberHooks.copyAssign tgt src heap).ret = tgt ∧
    (SpecialMemberHooks.moveAssign tgt src heap).ret = tgt := by
  refine ⟨?_, ?_⟩
  · unfold SpecialMemberHooks.copyAssign
    split <;> rfl
  · unfold SpecialMemberHooks.moveAssign
    split <;> rfl
